import Mathlib

/-!
A shallow embedding of the `udping` probe module (`ping.go`): parameter
validation, the UDP attempt classifier `pingUdp`, and the result loop `Run`.
Network interaction (hostname lookup, IP-literal parsing, dial/read outcomes,
wall-clock timing) is external to the program and is passed in as oracle
functions; everything else is translated from the Go source.
-/

/-- Go constant `E_Timeout` (ping.go line 12). -/
def E_Timeout : String := "timeout"

/-- Go constant `E_ConnRefused` (ping.go line 13). -/
def E_ConnRefused : String := "connection refused (no response)"

/-- Go struct `params` (ping.go lines 24-31).  Go `int` fields are modelled as
`Int`; `ipDest` is the unexported field set during validation. -/
structure Params where
  Destination : String
  DestinationPort : Int
  Protocol : String
  Count : Int
  Timeout : Int
  ipDest : String := ""
deriving Repr, DecidableEq

/-- Go struct `result` (ping.go lines 34-41).  `DestinationPort` and `RTT` are
`float64` in Go; the port always holds the converted integer value, and the
RTT holds an oracle-supplied elapsed time, so both are modelled as `Int`. -/
structure Result where
  Success : Bool := false
  Error : String := ""
  Destination : String := ""
  DestinationPort : Int := 0
  Protocol : String := ""
  RTT : Int := 0
deriving Repr, DecidableEq

/-- The zero value of Go's `result` struct: `make([]result, n)` in `main`
produces a slice of these. -/
def zeroResult : Result := {}

/-- Validation errors, one constructor per `fmt.Errorf` site in
`ValidateParameters` (ping.go lines 48, 60, 68), with the rendered message
kept in `VErr.render`. -/
inductive VErr where
  | portErr (protocol : String) (port : Int)
  | emptyResolve
  | invalidIP (ip : String)
deriving Repr, DecidableEq

/-- The error string each `fmt.Errorf` in `ValidateParameters` produces. -/
def VErr.render : VErr → String
  | .portErr protocol port =>
      protocol ++ " ping requires a valid destination port between 0 and 65535, got "
        ++ toString port
  | .emptyResolve => "FQDN does not resolve to any known ip"
  | .invalidIP ip => "destination IP is invalid: " ++ ip

/-- The tail of `ValidateParameters` once the address candidate `ip` is fixed
(ping.go lines 65-81): parse check, `ipDest` assignment, and the
`Timeout`/`Count` defaulting, in source order. -/
def validateIp (parseIP : String → Bool) (p : Params) (ip : String) : Except VErr Params :=
  if parseIP ip then
    let p1 := { p with ipDest := ip }
    let p2 := if p1.Timeout = 0 then { p1 with Timeout := 5 } else p1
    let p3 := if p2.Count = 0 then { p2 with Count := 3 } else p2
    Except.ok p3
  else
    Except.error (VErr.invalidIP ip)

/-- Go method `(*run).ValidateParameters` (ping.go lines 45-82).
`lookup` is the `net.LookupHost` oracle: `none` models a lookup error,
`some ips` a successful lookup.  `parseIP` is the `net.ParseIP` oracle
(`true` iff the string parses as an IPv4/IPv6 literal). -/
def ValidateParameters (lookup : String → Option (List String)) (parseIP : String → Bool)
    (p : Params) : Except VErr Params :=
  if p.Protocol ≠ "icmp" ∧ (p.DestinationPort < 0 ∨ p.DestinationPort > 65535) then
    Except.error (VErr.portErr p.Protocol p.DestinationPort)
  else
    match lookup p.Destination with
    | none => validateIp parseIP p p.Destination
    | some [] => Except.error VErr.emptyResolve
    | some (ip0 :: _) => validateIp parseIP p ip0

/-- Outcome of the blocking `c.Read` in `pingUdp`: either bytes arrive, or an
error carrying the `(*net.OpError).Timeout()` flag and its `Error()` text. -/
inductive ReadOutcome where
  | ok (bytes : Nat)
  | err (isTimeout : Bool) (msg : String)
deriving Repr, DecidableEq

/-- Outcome of one socket interaction: `net.Dial` failure, or the read result
(`pingUdp` ignores the `c.Write` result, so writes are not modelled). -/
inductive NetOutcome where
  | dialErr (msg : String)
  | read (r : ReadOutcome)
deriving Repr, DecidableEq

/-- Decides whether the character list `sub` is a prefix of `s`. -/
def hasPre : List Char → List Char → Bool
  | [], _ => true
  | _ :: _, [] => false
  | a :: as, b :: bs => a == b && hasPre as bs

/-- Decides whether the character list `sub` occurs inside `s`. -/
def hasSub : List Char → List Char → Bool
  | [], sub => hasPre sub []
  | a :: rest, sub => hasPre sub (a :: rest) || hasSub rest sub

/-- Go `strings.Contains s substr`. -/
def goContains (s substr : String) : Bool :=
  hasSub s.toList substr.toList

/-- The `ip:port` string `pingUdp` dials (ping.go line 90): note the Go code
concatenates the raw `Destination`, not the validated `ipDest`. -/
def dialAddress (p : Params) : String :=
  p.Destination ++ ":" ++ toString p.DestinationPort

/-- Go method `(*run).pingUdp` (ping.go lines 88-117).  `net` maps a dial
address to that attempt's socket outcome.  A successful read returns `ok`;
errors are classified in source order: the `Timeout()` flag first, then a
`strings.Contains "connection refused"` test, then the raw text prefixed
with `read Error: `. -/
def pingUdp (net : String → NetOutcome) (p : Params) : Except String Unit :=
  match net (dialAddress p) with
  | NetOutcome.dialErr msg => Except.error msg
  | NetOutcome.read (ReadOutcome.ok _) => Except.ok ()
  | NetOutcome.read (ReadOutcome.err isTimeout msg) =>
    if isTimeout then Except.error E_Timeout
    else if goContains msg "connection refused" then Except.error E_ConnRefused
    else Except.error ("read Error: " ++ msg)

/-- The error-classification block of the `Run` loop body (ping.go lines
131-143): on a nil error nothing is assigned, so the entry keeps its prior
`Success` and `Error` values. -/
def classify (old : Result) (e : Except String Unit) : Result :=
  match e with
  | Except.ok _ => old
  | Except.error msg =>
    if msg = E_Timeout then { old with Error := E_Timeout, Success := false }
    else if msg = E_ConnRefused then { old with Error := E_ConnRefused, Success := true }
    else { old with Error := msg, Success := false }

/-- One full iteration of the `Run` loop at index `i` applied to the prior
slice entry `old` (ping.go lines 128-150): ping, classify, then the RTT and
echo-field assignments.  `rtt i` supplies attempt `i`'s elapsed time. -/
def attemptWrite (p : Params) (net : Nat → String → NetOutcome) (rtt : Nat → Int)
    (i : Nat) (old : Result) : Result :=
  let c := classify old (pingUdp (net i) p)
  { c with
    RTT := rtt i
    Destination := p.Destination
    DestinationPort := p.DestinationPort
    Protocol := p.Protocol }

/-- The `for i := 0; i < Count; i++` loop of `Run` (ping.go lines 127-151),
with `n` iterations remaining and `i` the current index.  The slice accesses
`Results[i]` panic when `i` is out of bounds, modelled by `none`. -/
def runLoop (p : Params) (net : Nat → String → NetOutcome) (rtt : Nat → Int) :
    Nat → Nat → List Result → Option (List Result)
  | 0, _, rs => some rs
  | n + 1, i, rs =>
    match rs[i]? with
    | none => none
    | some old => runLoop p net rtt n (i + 1) (rs.set i (attemptWrite p net rtt i old))

/-- Outcome of `(*run).Run`: a nil return with the final `Results`, a non-nil
error return (with `Results` untouched by the run), or a runtime panic from
an out-of-bounds `Results[i]` access. -/
inductive RunResult where
  | ok (results : List Result)
  | err (msg : String) (results : List Result)
  | panicked
deriving Repr, DecidableEq

/-- Go method `(*run).Run` (ping.go lines 119-159): validate, then either run
the UDP loop over `Count` attempts or reject the protocol.  `results` is the
caller-supplied `Results` slice; Go's `for` with an `int` bound performs
`Count.toNat` iterations (none when `Count` is negative). -/
def Run (lookup : String → Option (List String)) (parseIP : String → Bool)
    (net : Nat → String → NetOutcome) (rtt : Nat → Int)
    (p : Params) (results : List Result) : RunResult :=
  match ValidateParameters lookup parseIP p with
  | Except.error e => RunResult.err e.render results
  | Except.ok p1 =>
    if p1.Protocol = "udp" then
      match runLoop p1 net rtt p1.Count.toNat 0 results with
      | none => RunResult.panicked
      | some rs => RunResult.ok rs
    else
      RunResult.err ("protocol " ++ p1.Protocol ++ " is not supported") results

/-- The dial address the spec describes: `resolvedAddress:destinationPort`
(spec section 4.2 step 1).  Written from the spec's words, to be compared
with `dialAddress`, which is what the code computes. -/
def resolvedDialAddress (p : Params) : String :=
  p.ipDest ++ ":" ++ toString p.DestinationPort

/-! Concrete oracle functions and parameter sets used by the witness and
counterexample theorems below. -/

def litLookup : String → Option (List String) := fun _ => none

def anyParse : String → Bool := fun _ => true

def timeoutNet : Nat → String → NetOutcome :=
  fun _ _ => NetOutcome.read (ReadOutcome.err true "read udp: i/o timeout")

def bytesNet : Nat → String → NetOutcome :=
  fun _ _ => NetOutcome.read (ReadOutcome.ok 4)

def refusedNet : Nat → String → NetOutcome :=
  fun _ _ => NetOutcome.read (ReadOutcome.err false "read udp: recvfrom: connection refused")

def zeroRtt : Nat → Int := fun _ => 0

def okParams : Params :=
  { Destination := "1.2.3.4", DestinationPort := 80, Protocol := "udp", Count := 1, Timeout := 1 }

def okParamsV : Params := { okParams with ipDest := "1.2.3.4" }

def count0Params : Params :=
  { Destination := "1.2.3.4", DestinationPort := 80, Protocol := "udp", Count := 0, Timeout := 1 }

def count0Validated : Params := { count0Params with Count := 3, ipDest := "1.2.3.4" }

def hostLookup : String → Option (List String) :=
  fun s => if s = "localhost" then some ["127.0.0.1"] else none

def ipOnlyParse : String → Bool := fun s => s == "127.0.0.1"

def hostParams : Params :=
  { Destination := "localhost", DestinationPort := 80, Protocol := "udp", Count := 1, Timeout := 1 }

def hostValidated : Params := { hostParams with ipDest := "127.0.0.1" }

def emptyLookup : String → Option (List String) := fun _ => some []

def icmpParams : Params :=
  { Destination := "1.2.3.4", DestinationPort := 80, Protocol := "icmp", Count := 1, Timeout := 1 }

def icmpValidated : Params := { icmpParams with ipDest := "1.2.3.4" }

def negParams : Params :=
  { Destination := "1.2.3.4", DestinationPort := 80, Protocol := "udp", Count := -2, Timeout := -1 }

def negValidated : Params := { negParams with ipDest := "1.2.3.4" }

/-- The validated parameters `validateIp` produces when the parse succeeds. -/
def applyDefaultsIp (p : Params) (ip : String) : Params :=
  { p with
    ipDest := ip
    Timeout := if p.Timeout = 0 then 5 else p.Timeout
    Count := if p.Count = 0 then 3 else p.Count }

lemma validateIp_eq (parseIP : String → Bool) (p : Params) (ip : String) :
    validateIp parseIP p ip =
      if parseIP ip then Except.ok (applyDefaultsIp p ip)
      else Except.error (VErr.invalidIP ip) := by
  by_cases hp : parseIP ip
  · simp only [validateIp, applyDefaultsIp, hp, if_true]
    by_cases ht : p.Timeout = 0 <;> by_cases hc : p.Count = 0 <;>
      simp [ht, hc]
  · simp [validateIp, hp]

lemma ValidateParameters_ok_fields {lookup : String → Option (List String)}
    {parseIP : String → Bool} {p p1 : Params}
    (h : ValidateParameters lookup parseIP p = Except.ok p1) :
    p1.Destination = p.Destination ∧ p1.DestinationPort = p.DestinationPort ∧
    p1.Protocol = p.Protocol ∧
    p1.Count = (if p.Count = 0 then 3 else p.Count) ∧
    p1.Timeout = (if p.Timeout = 0 then 5 else p.Timeout) := by
  unfold ValidateParameters at h
  split at h
  · exact absurd h (by simp)
  · split at h
    · rw [validateIp_eq] at h
      split at h
      · obtain rfl : applyDefaultsIp p p.Destination = p1 := by
          exact Except.ok.inj h
        simp [applyDefaultsIp]
      · exact absurd h (by simp)
    · exact absurd h (by simp)
    · rw [validateIp_eq] at h
      split at h
      · rename_i ip0 rest hsome hp
        obtain rfl : applyDefaultsIp p ip0 = p1 := Except.ok.inj h
        simp [applyDefaultsIp]
      · exact absurd h (by simp)

lemma runLoop_ok (p : Params) (net : Nat → String → NetOutcome) (rtt : Nat → Int) :
    ∀ (n i : Nat) (rs : List Result), i + n ≤ rs.length →
      ∃ rs', runLoop p net rtt n i rs = some rs' ∧
        rs'.length = rs.length ∧
        (∀ j, (j < i ∨ i + n ≤ j) → rs'[j]? = rs[j]?) ∧
        (∀ j, i ≤ j → j < i + n → rs'[j]? = (rs[j]?).map (attemptWrite p net rtt j)) := by
  intro n
  induction n with
  | zero =>
    intro i rs _
    exact ⟨rs, rfl, rfl, fun j _ => rfl, fun j h1 h2 => absurd h2 (by omega)⟩
  | succ n ih =>
    intro i rs h
    have hi : i < rs.length := by omega
    have hget : rs[i]? = some rs[i] := List.getElem?_eq_getElem hi
    obtain ⟨rs', hrun, hlen, hout, hin⟩ :=
      ih (i + 1) (rs.set i (attemptWrite p net rtt i rs[i])) (by simp; omega)
    refine ⟨rs', ?_, ?_, ?_, ?_⟩
    · simp only [runLoop, hget]
      exact hrun
    · rw [hlen, List.length_set]
    · intro j hj
      have hne : i ≠ j := by omega
      have h1 : rs'[j]? = (rs.set i (attemptWrite p net rtt i rs[i]))[j]? :=
        hout j (by omega)
      rw [h1, List.getElem?_set_ne hne]
    · intro j h1 h2
      rcases eq_or_lt_of_le h1 with rfl | hlt
      · have h3 : rs'[i]? = (rs.set i (attemptWrite p net rtt i rs[i]))[i]? :=
          hout i (Or.inl (by omega))
        rw [h3, List.getElem?_set_self hi, hget]
        rfl
      · have h3 : rs'[j]? =
            ((rs.set i (attemptWrite p net rtt i rs[i]))[j]?).map (attemptWrite p net rtt j) :=
          hin j (by omega) (by omega)
        rw [h3, List.getElem?_set_ne (by omega)]

lemma Run_udp_ok {lookup : String → Option (List String)} {parseIP : String → Bool}
    {net : Nat → String → NetOutcome} {rtt : Nat → Int} {p p1 : Params} {rs : List Result}
    (hv : ValidateParameters lookup parseIP p = Except.ok p1)
    (hu : p1.Protocol = "udp")
    (hl : p1.Count.toNat ≤ rs.length) :
    ∃ rs', Run lookup parseIP net rtt p rs = RunResult.ok rs' ∧
      rs'.length = rs.length ∧
      (∀ j, j < p1.Count.toNat → rs'[j]? = (rs[j]?).map (attemptWrite p1 net rtt j)) ∧
      (∀ j, p1.Count.toNat ≤ j → rs'[j]? = rs[j]?) := by
  obtain ⟨rs', hrun, hlen, hout, hin⟩ :=
    runLoop_ok p1 net rtt p1.Count.toNat 0 rs (by omega)
  refine ⟨rs', ?_, hlen, ?_, ?_⟩
  · unfold Run
    rw [hv]
    simp only [hu, eq_self_iff_true, if_true]
    rw [hrun]
  · intro j hj
    exact hin j (Nat.zero_le j) (by omega)
  · intro j hj
    exact hout j (Or.inr (by omega))

lemma runLoop_oob (p : Params) (net : Nat → String → NetOutcome) (rtt : Nat → Int) :
    ∀ (n i : Nat) (rs : List Result), rs.length < i + n → 1 ≤ n →
      runLoop p net rtt n i rs = none := by
  intro n
  induction n with
  | zero => intro i rs _ h1; omega
  | succ n ih =>
    intro i rs h _
    by_cases hi : i < rs.length
    · have hget : rs[i]? = some rs[i] := List.getElem?_eq_getElem hi
      simp only [runLoop, hget]
      exact ih (i + 1) (rs.set i (attemptWrite p net rtt i rs[i])) (by simp; omega) (by omega)
    · have hget : rs[i]? = none := List.getElem?_eq_none (by omega)
      simp only [runLoop, hget]

lemma attemptWrite_timeout {net : Nat → String → NetOutcome} {p : Params} (rtt : Nat → Int)
    {i : Nat} (old : Result) {msg : String}
    (hnet : net i (dialAddress p) = NetOutcome.read (ReadOutcome.err true msg)) :
    (attemptWrite p net rtt i old).Success = false ∧
    (attemptWrite p net rtt i old).Error = E_Timeout := by
  unfold attemptWrite classify pingUdp
  rw [hnet]
  simp

lemma attemptWrite_refused {net : Nat → String → NetOutcome} {p : Params} (rtt : Nat → Int)
    {i : Nat} (old : Result) {msg : String}
    (hnet : net i (dialAddress p) = NetOutcome.read (ReadOutcome.err false msg))
    (hsub : goContains msg "connection refused" = true) :
    (attemptWrite p net rtt i old).Success = true ∧
    (attemptWrite p net rtt i old).Error = E_ConnRefused := by
  unfold attemptWrite classify pingUdp
  rw [hnet]
  simp only [Bool.false_eq_true, if_false, hsub, if_true]
  have hne : ¬(E_ConnRefused = E_Timeout) := by decide
  simp [hne]

/-- C1: on a successful read `Run` assigns nothing to `Success`/`Error`, so the
entry keeps the slice's zero values: `Success = false`, not `true`. -/
theorem C1_success_read_leaves_success_false :
    Run litLookup anyParse bytesNet zeroRtt okParams [zeroResult] =
      RunResult.ok [{ Success := false, Error := "", Destination := "1.2.3.4",
                      DestinationPort := 80, Protocol := "udp", RTT := 0 }] := by
  rfl

/-- C2: a read failing with the timeout flag set yields a result entry with
`Success = false` and `Error = "timeout"`. -/
theorem C2_timeout_entry (lookup : String → Option (List String)) (parseIP : String → Bool)
    (net : Nat → String → NetOutcome) (rtt : Nat → Int) (p p1 : Params) (rs : List Result)
    (i : Nat) (msg : String)
    (hv : ValidateParameters lookup parseIP p = Except.ok p1)
    (hu : p1.Protocol = "udp")
    (hl : p1.Count.toNat ≤ rs.length)
    (hi : i < p1.Count.toNat)
    (hnet : net i (dialAddress p1) = NetOutcome.read (ReadOutcome.err true msg)) :
    ∃ rs' v, Run lookup parseIP net rtt p rs = RunResult.ok rs' ∧
      rs'[i]? = some v ∧ v.Success = false ∧ v.Error = E_Timeout := by
  obtain ⟨rs', hrun, _, hwr, _⟩ := Run_udp_ok hv hu hl
  have hib : i < rs.length := lt_of_lt_of_le hi hl
  have hget : rs[i]? = some rs[i] := List.getElem?_eq_getElem hib
  have hv' := hwr i hi
  rw [hget] at hv'
  obtain ⟨hs, he⟩ := attemptWrite_timeout rtt (rs.get ⟨i, hib⟩) hnet
  exact ⟨rs', attemptWrite p1 net rtt i rs[i], hrun, hv', hs, he⟩

/-- C2 witness: a one-attempt run whose read times out. -/
theorem C2_witness : ∃ rs' v,
    Run litLookup anyParse timeoutNet zeroRtt okParams [zeroResult] = RunResult.ok rs' ∧
    rs'[0]? = some v ∧ v.Success = false ∧ v.Error = E_Timeout :=
  C2_timeout_entry litLookup anyParse timeoutNet zeroRtt okParams okParamsV [zeroResult] 0
    "read udp: i/o timeout" (by rfl) (by rfl) (by decide) (by decide) (by rfl)

/-- C3: a read failing without the timeout flag but with an error text
containing "connection refused" yields `Success = true` and
`Error = "connection refused (no response)"`. -/
theorem C3_refused_entry (lookup : String → Option (List String)) (parseIP : String → Bool)
    (net : Nat → String → NetOutcome) (rtt : Nat → Int) (p p1 : Params) (rs : List Result)
    (i : Nat) (msg : String)
    (hv : ValidateParameters lookup parseIP p = Except.ok p1)
    (hu : p1.Protocol = "udp")
    (hl : p1.Count.toNat ≤ rs.length)
    (hi : i < p1.Count.toNat)
    (hnet : net i (dialAddress p1) = NetOutcome.read (ReadOutcome.err false msg))
    (hsub : goContains msg "connection refused" = true) :
    ∃ rs' v, Run lookup parseIP net rtt p rs = RunResult.ok rs' ∧
      rs'[i]? = some v ∧ v.Success = true ∧ v.Error = E_ConnRefused := by
  obtain ⟨rs', hrun, _, hwr, _⟩ := Run_udp_ok hv hu hl
  have hib : i < rs.length := lt_of_lt_of_le hi hl
  have hget : rs[i]? = some rs[i] := List.getElem?_eq_getElem hib
  have hv' := hwr i hi
  rw [hget] at hv'
  obtain ⟨hs, he⟩ := attemptWrite_refused rtt (rs.get ⟨i, hib⟩) hnet hsub
  exact ⟨rs', attemptWrite p1 net rtt i rs[i], hrun, hv', hs, he⟩

/-- C3 witness: a one-attempt run whose read reports connection refused. -/
theorem C3_witness : ∃ rs' v,
    Run litLookup anyParse refusedNet zeroRtt okParams [zeroResult] = RunResult.ok rs' ∧
    rs'[0]? = some v ∧ v.Success = true ∧ v.Error = E_ConnRefused :=
  C3_refused_entry litLookup anyParse refusedNet zeroRtt okParams okParamsV [zeroResult] 0
    "read udp: recvfrom: connection refused" (by rfl) (by rfl) (by decide) (by decide)
    (by rfl) (by rfl)

/-- C4 counterexample: a request with raw `Count = 0` passes validation (count
coerced to 3) with protocol udp, yet `Run` on the caller's length-0 slice
panics instead of performing 3 recorded attempts. -/
theorem C4_counterexample :
    ValidateParameters litLookup anyParse count0Params = Except.ok count0Validated ∧
    count0Validated.Protocol = "udp" ∧ count0Validated.Count = 3 ∧
    Run litLookup anyParse bytesNet zeroRtt count0Params [] = RunResult.panicked := by
  exact ⟨by rfl, by rfl, by rfl, by rfl⟩

/-- C4 (amended): when additionally the validated count is nonnegative and the
caller's slice is at least that long, `Run` returns nil after exactly
`Count` sequential attempts: every index below `Count` holds its attempt's
written entry, every index at or above `Count` is untouched, and the slice
length is unchanged. -/
theorem C4_all_attempts_recorded (lookup : String → Option (List String))
    (parseIP : String → Bool) (net : Nat → String → NetOutcome) (rtt : Nat → Int)
    (p p1 : Params) (rs : List Result)
    (hv : ValidateParameters lookup parseIP p = Except.ok p1)
    (hu : p1.Protocol = "udp")
    (hc : 0 ≤ p1.Count)
    (hl : p1.Count.toNat ≤ rs.length) :
    (p1.Count.toNat : Int) = p1.Count ∧
    ∃ rs', Run lookup parseIP net rtt p rs = RunResult.ok rs' ∧
      rs'.length = rs.length ∧
      (∀ j, j < p1.Count.toNat → rs'[j]? = (rs[j]?).map (attemptWrite p1 net rtt j)) ∧
      (∀ j, p1.Count.toNat ≤ j → rs'[j]? = rs[j]?) :=
  ⟨Int.toNat_of_nonneg hc, Run_udp_ok hv hu hl⟩

/-- C4 witness: a two-attempt run over a two-slot slice. -/
theorem C4_witness :
    ((2 : Int).toNat : Int) = 2 ∧
    ∃ rs', Run litLookup anyParse timeoutNet zeroRtt
        { okParams with Count := 2 } [zeroResult, zeroResult] = RunResult.ok rs' ∧
      rs'.length = 2 ∧
      (∀ j, j < 2 → rs'[j]? = ([zeroResult, zeroResult][j]?).map
        (attemptWrite { okParamsV with Count := 2 } timeoutNet zeroRtt j)) ∧
      (∀ j, 2 ≤ j → rs'[j]? = [zeroResult, zeroResult][j]?) :=
  C4_all_attempts_recorded litLookup anyParse timeoutNet zeroRtt
    { okParams with Count := 2 } { okParamsV with Count := 2 } [zeroResult, zeroResult]
    (by rfl) (by rfl) (by decide) (by decide)

/-- C5: after validating a hostname to `ipDest = "127.0.0.1"`, `pingUdp` still
dials the raw destination string `"localhost:80"`; the spec's
`resolvedAddress:destinationPort` address differs. -/
theorem C5_dials_raw_destination :
    ValidateParameters hostLookup ipOnlyParse hostParams = Except.ok hostValidated ∧
    hostValidated.ipDest = "127.0.0.1" ∧
    dialAddress hostValidated = "localhost:80" ∧
    resolvedDialAddress hostValidated = "127.0.0.1:80" ∧
    dialAddress hostValidated ≠ resolvedDialAddress hostValidated := by
  refine ⟨by rfl, by rfl, by rfl, by rfl, by decide⟩

/-- C6: for a non-icmp protocol, validation reports the port error (naming the
protocol and port) exactly when the port lies outside `[0, 65535]`; in
particular port 0 is accepted past the port check. -/
theorem C6_port_range_check (lookup : String → Option (List String)) (parseIP : String → Bool)
    (p : Params) (h : p.Protocol ≠ "icmp") :
    (ValidateParameters lookup parseIP p =
        Except.error (VErr.portErr p.Protocol p.DestinationPort) ↔
      (p.DestinationPort < 0 ∨ p.DestinationPort > 65535)) ∧
    VErr.render (VErr.portErr p.Protocol p.DestinationPort) =
      p.Protocol ++ " ping requires a valid destination port between 0 and 65535, got "
        ++ toString p.DestinationPort := by
  refine ⟨⟨?_, ?_⟩, rfl⟩
  · intro heq
    by_contra hout
    have hcond : ¬(p.Protocol ≠ "icmp" ∧ (p.DestinationPort < 0 ∨ p.DestinationPort > 65535)) :=
      fun hand => hout hand.2
    unfold ValidateParameters at heq
    rw [if_neg hcond] at heq
    split at heq
    · rw [validateIp_eq] at heq
      split at heq <;> simp at heq
    · simp at heq
    · rw [validateIp_eq] at heq
      split at heq <;> simp at heq
  · intro hout
    unfold ValidateParameters
    rw [if_pos ⟨h, hout⟩]

/-- C6 witness: port 70000 with protocol udp is rejected with the port error,
and port 0 is not rejected by the port check. -/
theorem C6_witness :
    (ValidateParameters litLookup anyParse { okParams with DestinationPort := 70000 } =
        Except.error (VErr.portErr "udp" 70000) ↔ ((70000 : Int) < 0 ∨ (70000 : Int) > 65535)) ∧
    VErr.render (VErr.portErr "udp" 70000) =
      "udp" ++ " ping requires a valid destination port between 0 and 65535, got "
        ++ toString (70000 : Int) :=
  C6_port_range_check litLookup anyParse { okParams with DestinationPort := 70000 } (by decide)

/-- C7: resolution candidates and their failure modes, once the port check
passes: at least one resolved address makes the first one the candidate; a
failed lookup makes the raw destination the candidate; a lookup returning
zero addresses is an error; an unparsable candidate is an error naming it,
and a parsable one is stored as `ipDest`. -/
theorem C7_resolution_candidates (lookup : String → Option (List String))
    (parseIP : String → Bool) (p : Params)
    (h : ¬(p.Protocol ≠ "icmp" ∧ (p.DestinationPort < 0 ∨ p.DestinationPort > 65535))) :
    (lookup p.Destination = some [] →
      ValidateParameters lookup parseIP p = Except.error VErr.emptyResolve) ∧
    (∀ ip0 rest, lookup p.Destination = some (ip0 :: rest) →
      ValidateParameters lookup parseIP p = validateIp parseIP p ip0) ∧
    (lookup p.Destination = none →
      ValidateParameters lookup parseIP p = validateIp parseIP p p.Destination) ∧
    (∀ ip, parseIP ip = false → validateIp parseIP p ip = Except.error (VErr.invalidIP ip)) ∧
    (∀ ip, parseIP ip = true → ∃ p1, validateIp parseIP p ip = Except.ok p1 ∧ p1.ipDest = ip) := by
  refine ⟨?_, ?_, ?_, ?_, ?_⟩
  · intro hl
    unfold ValidateParameters
    rw [if_neg h, hl]
  · intro ip0 rest hl
    unfold ValidateParameters
    rw [if_neg h, hl]
  · intro hl
    unfold ValidateParameters
    rw [if_neg h, hl]
  · intro ip hp
    rw [validateIp_eq]
    simp [hp]
  · intro ip hp
    rw [validateIp_eq]
    exact ⟨applyDefaultsIp p ip, by simp [hp], rfl⟩

/-- C7 witness: a lookup returning zero addresses fails validation with the
empty-resolution error. -/
theorem C7_witness :
    ValidateParameters emptyLookup anyParse okParams = Except.error VErr.emptyResolve :=
  (C7_resolution_candidates emptyLookup anyParse okParams (by decide)).1 rfl

/-- C8: when the validated protocol is not "udp", `Run` returns the
"protocol ... is not supported" error with the caller's slice untouched —
zero attempts. -/
theorem C8_unsupported_protocol (lookup : String → Option (List String))
    (parseIP : String → Bool) (net : Nat → String → NetOutcome) (rtt : Nat → Int)
    (p p1 : Params) (rs : List Result)
    (hv : ValidateParameters lookup parseIP p = Except.ok p1)
    (hne : p1.Protocol ≠ "udp") :
    Run lookup parseIP net rtt p rs =
      RunResult.err ("protocol " ++ p1.Protocol ++ " is not supported") rs := by
  unfold Run
  rw [hv]
  simp only [hne, if_false]

/-- C8 witness: a validated icmp request is rejected with the unsupported
protocol error and the slice is returned untouched. -/
theorem C8_witness :
    Run litLookup anyParse bytesNet zeroRtt icmpParams [zeroResult] =
      RunResult.err ("protocol " ++ "icmp" ++ " is not supported") [zeroResult] :=
  C8_unsupported_protocol litLookup anyParse bytesNet zeroRtt icmpParams icmpValidated
    [zeroResult] (by rfl) (by decide)

/-- C9: a raw `Count` of 0 is coerced to 3 by validation, so on a udp request
`Run` indexes past any caller slice shorter than 3 — in particular the
length-0 slice `main` builds from the raw count — and panics instead of
producing 3 result entries. -/
theorem C9_count0_short_slice_panics (lookup : String → Option (List String))
    (parseIP : String → Bool) (net : Nat → String → NetOutcome) (rtt : Nat → Int)
    (p p1 : Params) (rs : List Result)
    (hc : p.Count = 0)
    (hv : ValidateParameters lookup parseIP p = Except.ok p1)
    (hu : p1.Protocol = "udp")
    (hs : rs.length < 3) :
    p1.Count = 3 ∧ Run lookup parseIP net rtt p rs = RunResult.panicked := by
  have hf := ValidateParameters_ok_fields hv
  have h3 : p1.Count = 3 := by rw [hf.2.2.2.1, if_pos hc]
  refine ⟨h3, ?_⟩
  have h3n : p1.Count.toNat = 3 := by omega
  have hnone : runLoop p1 net rtt p1.Count.toNat 0 rs = none := by
    rw [h3n]
    exact runLoop_oob p1 net rtt 3 0 rs (by omega) (by omega)
  unfold Run
  rw [hv]
  simp only [hu, eq_self_iff_true, if_true]
  rw [hnone]

/-- C9 witness: raw count 0 with the empty slice panics. -/
theorem C9_witness :
    count0Validated.Count = 3 ∧
    Run litLookup anyParse bytesNet zeroRtt count0Params [] = RunResult.panicked :=
  C9_count0_short_slice_panics litLookup anyParse bytesNet zeroRtt count0Params
    count0Validated [] (by rfl) (by rfl) (by rfl) (by decide)

/-- C10: validation's defaulting triggers only on exactly zero — negative
`Count` and `Timeout` values pass through unchanged without error — and a
negative validated count makes the udp loop run zero times, so `Run`
returns nil with the slice untouched. -/
theorem C10_negative_passthrough (lookup : String → Option (List String))
    (parseIP : String → Bool) (net : Nat → String → NetOutcome) (rtt : Nat → Int)
    (p p1 : Params) (rs : List Result)
    (hv : ValidateParameters lookup parseIP p = Except.ok p1) :
    (p.Count < 0 → p1.Count = p.Count) ∧
    (p.Timeout < 0 → p1.Timeout = p.Timeout) ∧
    (p.Count < 0 → p1.Protocol = "udp" →
      Run lookup parseIP net rtt p rs = RunResult.ok rs) := by
  have hf := ValidateParameters_ok_fields hv
  refine ⟨?_, ?_, ?_⟩
  · intro hneg
    rw [hf.2.2.2.1, if_neg (by omega)]
  · intro hneg
    rw [hf.2.2.2.2, if_neg (by omega)]
  · intro hneg hu
    have hcnt : p1.Count = p.Count := by rw [hf.2.2.2.1, if_neg (by omega)]
    have h0 : p1.Count.toNat = 0 := by omega
    unfold Run
    rw [hv]
    simp only [hu, eq_self_iff_true, if_true]
    rw [h0]
    exact rfl

/-- C10 witness: count -2 and timeout -1 validate unchanged and the run makes
zero attempts, returning the slice untouched. -/
theorem C10_witness :
    negValidated.Count = -2 ∧ negValidated.Timeout = -1 ∧
    Run litLookup anyParse bytesNet zeroRtt negParams [zeroResult] =
      RunResult.ok [zeroResult] := by
  have h := C10_negative_passthrough litLookup anyParse bytesNet zeroRtt negParams
    negValidated [zeroResult] (by rfl)
  exact ⟨h.1 (by decide), h.2.1 (by decide), h.2.2 (by decide) (by rfl)⟩
